import Mathlib

/-!
# Verification of the block-wise masking pipeline of `redeextract`

This file gives a shallow embedding of `ExtractByRasterMask` from
`src/redeextract/extract_by_raster_mask.py` and proves properties of the
per-tile substitution transform, the profile resolver, the tiled write
loop, and the lock discipline of the worker pool.

Pixel values are modelled as `Int`; floating-point raster values are
treated as exact numbers, since the substitution rules only use equality
and order comparisons.
-/

set_option autoImplicit false

namespace RedeExtract

/-! ## Pixel types and the `DATA_TYPES` mapping -/

/-- The eight storage pixel types supported by the `DATA_TYPES` lookup. -/
inductive DType
  | int32
  | uint32
  | float64
  | int16
  | uint16
  | float32
  | ubyte
  | byte
deriving DecidableEq

/-- The `DATA_TYPES` dictionary: rasterio dtype string to numpy type. -/
def DATA_TYPES : List (String × DType) :=
  [("int32", DType.int32), ("uint32", DType.uint32),
   ("float64", DType.float64), ("int16", DType.int16),
   ("uint16", DType.uint16), ("float32", DType.float32),
   ("ubyte", DType.ubyte), ("byte", DType.byte)]

/-- Dictionary lookup `DATA_TYPES[s]`; `none` models a `KeyError`. -/
def dataTypesLookup (s : String) : Option DType :=
  (DATA_TYPES.find? (fun p => p.1 = s)).map (fun p => p.2)

/-- Wrap an integer into the signed `w`-bit range, as numpy integer
`astype` conversion does. -/
def wrapS (w : Nat) (v : Int) : Int :=
  (v + 2 ^ (w - 1)) % 2 ^ w - 2 ^ (w - 1)

/-- Wrap an integer into the unsigned `w`-bit range. -/
def wrapU (w : Nat) (v : Int) : Int :=
  v % 2 ^ w

/-- The value cast performed by `data.astype(DATA_TYPES[self.dtype])`.
Integer targets wrap modulo their width; floating targets are modelled
as exact. -/
def castVal : DType → Int → Int
  | DType.int32, v => wrapS 32 v
  | DType.uint32, v => wrapU 32 v
  | DType.float64, v => v
  | DType.int16, v => wrapS 16 v
  | DType.uint16, v => wrapU 16 v
  | DType.float32, v => v
  | DType.ubyte, v => wrapU 8 v
  | DType.byte, v => wrapS 8 v

/-! ## The substitution rules of `extract_to_mask.process`

The three assignment lines of `process` (lines 137-139 of the source):

* `data[data_mst == mst.nodata] = self.nodata`
* `data[data == self.original_nodata] = self.nodata`
* `data[data < -9999999999] = self.nodata`
-/

/-- The fixed extreme-negative guard threshold `-9999999999`. -/
def GUARD : Int := -9999999999

/-- Rule A: where the mask pixel `m` equals the mask raster's own
no-data value, set the source pixel to the target sentinel. -/
def ruleA (nodata mstNodata : Int) (m d : Int) : Int :=
  if m = mstNodata then nodata else d

/-- Rule B: where the source pixel equals the reference raster's
original no-data value, set it to the target sentinel. -/
def ruleB (nodata origNodata : Int) (d : Int) : Int :=
  if d = origNodata then nodata else d

/-- Rule C: where the source pixel is below the guard threshold, set it
to the target sentinel. -/
def ruleC (nodata : Int) (d : Int) : Int :=
  if d < GUARD then nodata else d

/-- The per-pixel composition of the three rules, in source order
A, then B, then C.  `m` is the co-located mask pixel, `d` the source
pixel. -/
def rulePix (nodata origNodata mstNodata : Int) (m d : Int) : Int :=
  ruleC nodata (ruleB nodata origNodata (ruleA nodata mstNodata m d))

/-- The three vectorised assignments applied to a tile buffer `data`
with its co-located mask buffer `mdata`. -/
def applyRules (nodata origNodata mstNodata : Int) :
    List Int → List Int → List Int
  | d :: ds, m :: ms =>
      rulePix nodata origNodata mstNodata m d ::
        applyRules nodata origNodata mstNodata ds ms
  | _, _ => []

/-- The pure content of `process`: the three substitution rules followed
by the `astype` cast to the destination pixel type. -/
def process (dtype : DType) (nodata origNodata mstNodata : Int)
    (data mdata : List Int) : List Int :=
  (applyRules nodata origNodata mstNodata data mdata).map (castVal dtype)

/-! ### Pointwise lemmas about the rules -/

lemma rulePix_mask (n o mN d : Int) : rulePix n o mN mN d = n := by
  unfold rulePix ruleA ruleB ruleC
  split_ifs <;> first | rfl | omega

lemma rulePix_orig (n o mN m : Int) : rulePix n o mN m o = n := by
  unfold rulePix ruleA ruleB ruleC
  split_ifs <;> omega

lemma rulePix_guard (n o mN m d : Int) (h : d < GUARD) :
    rulePix n o mN m d = n := by
  unfold rulePix ruleA ruleB ruleC
  split_ifs <;> omega

lemma rulePix_idem (n o mN m d : Int) :
    rulePix n o mN m (rulePix n o mN m d) = rulePix n o mN m d := by
  unfold rulePix ruleA ruleB ruleC
  split_ifs <;> omega

/-! ### Buffer-level lemmas -/

lemma applyRules_length (n o mN : Int) :
    ∀ (data mdata : List Int),
      (applyRules n o mN data mdata).length =
        min data.length mdata.length
  | [], [] => rfl
  | [], _ :: _ => rfl
  | _ :: _, [] => rfl
  | d :: ds, m :: ms => by
      simp [applyRules, applyRules_length n o mN ds ms]
      omega

lemma applyRules_getD (n o mN : Int) :
    ∀ (data mdata : List Int) (i : Nat),
      i < data.length → i < mdata.length →
      (applyRules n o mN data mdata).getD i 0 =
        rulePix n o mN (mdata.getD i 0) (data.getD i 0)
  | d :: ds, m :: ms, 0, _, _ => rfl
  | d :: ds, m :: ms, i + 1, h1, h2 => by
      simpa [applyRules] using
        applyRules_getD n o mN ds ms i
          (Nat.lt_of_succ_lt_succ h1) (Nat.lt_of_succ_lt_succ h2)

lemma getD_map_lt (f : Int → Int) :
    ∀ (l : List Int) (i : Nat), i < l.length →
      (l.map f).getD i 0 = f (l.getD i 0)
  | x :: xs, 0, _ => rfl
  | x :: xs, i + 1, h => by
      simpa using getD_map_lt f xs i (Nat.lt_of_succ_lt_succ h)

lemma process_getD (dtype : DType) (n o mN : Int)
    (data mdata : List Int) (i : Nat)
    (h1 : i < data.length) (h2 : i < mdata.length) :
    (process dtype n o mN data mdata).getD i 0 =
      castVal dtype (rulePix n o mN (mdata.getD i 0) (data.getD i 0)) := by
  unfold process
  rw [getD_map_lt _ _ _ (by rw [applyRules_length]; omega),
    applyRules_getD n o mN data mdata i h1 h2]

lemma applyRules_idem (n o mN : Int) :
    ∀ (data mdata : List Int),
      applyRules n o mN (applyRules n o mN data mdata) mdata =
        applyRules n o mN data mdata
  | [], [] => rfl
  | [], _ :: _ => rfl
  | _ :: _, [] => rfl
  | d :: ds, m :: ms => by
      simp [applyRules, rulePix_idem, applyRules_idem n o mN ds ms]

/-! ## Windows and the tiled write loop -/

/-- A block window `(col_off, row_off, width, height)` as produced by
`src.block_windows()`. -/
structure Window where
  colOff : Nat
  rowOff : Nat
  width : Nat
  height : Nat
deriving DecidableEq

/-- The data content of `extract_to_mask` on the success path: every
window's tile is read from the intermediate raster (`srcRead`) and the
mask raster (`mstRead`), transformed by `process`, and written to the
destination at the same window.  The destination starts as `dst0`. -/
def extract_to_mask_result (dtype : DType) (nodata origNodata mstNodata : Int)
    (srcRead mstRead : Window → List Int) (dst0 : Window → List Int)
    (windows : List Window) : Window → List Int :=
  windows.foldl
    (fun dst w =>
      Function.update dst w
        (process dtype nodata origNodata mstNodata (srcRead w) (mstRead w)))
    dst0

lemma extract_result_eq (dtype : DType) (nodata origNodata mstNodata : Int)
    (srcRead mstRead : Window → List Int) :
    ∀ (windows : List Window) (dst0 : Window → List Int) (w : Window),
      extract_to_mask_result dtype nodata origNodata mstNodata
        srcRead mstRead dst0 windows w =
      if w ∈ windows then
        process dtype nodata origNodata mstNodata (srcRead w) (mstRead w)
      else dst0 w
  | [], dst0, w => by simp [extract_to_mask_result]
  | w0 :: ws, dst0, w => by
      rw [show extract_to_mask_result dtype nodata origNodata mstNodata
            srcRead mstRead dst0 (w0 :: ws) =
          extract_to_mask_result dtype nodata origNodata mstNodata
            srcRead mstRead
            (Function.update dst0 w0
              (process dtype nodata origNodata mstNodata
                (srcRead w0) (mstRead w0))) ws from rfl,
        extract_result_eq dtype nodata origNodata mstNodata srcRead mstRead
          ws _ w]
      by_cases hws : w ∈ ws
      · simp [hws]
      · by_cases hw0 : w = w0
        · subst hw0
          simp [hws, Function.update_same]
        · simp [hws, hw0, Function.update_noteq hw0]

/-! ## The profile resolver `get_extent_dims` -/

/-- The bounds of a raster, `src.bounds`. -/
structure Bounds where
  left : Int
  bottom : Int
  right : Int
  top : Int
deriving DecidableEq

/-- A raster profile as read by rasterio, with the keys the pipeline
touches or copies.  `crs` and `transform` are copied verbatim and never
inspected, so they are modelled by opaque integer identifiers. -/
structure Profile where
  driver : String
  dtype : String
  nodata : Option Int
  width : Nat
  height : Nat
  count : Nat
  crs : Int
  transform : Int
  blockxsize : Option Nat
  blockysize : Option Nat
  tiled : Bool
  compress : Option String
  interleave : Option String
  bigtiff : Option String
deriving DecidableEq

/-- The reference (mask) raster as opened by `rasterio.open`. -/
structure MaskSrc where
  profile : Profile
  bounds : Bounds
deriving DecidableEq

/-- `ExtractByRasterMask.get_extent_dims`: copies the mask profile,
captures its original no-data value, then overrides dtype, nodata,
compression, bigtiff mode, and tiling, and returns
`(extent, width, height, profile)` together with the captured
`original_nodata`. -/
def get_extent_dims (src : MaskSrc) (dtype : String) (nodata : Int) :
    Bounds × Nat × Nat × Profile × Option Int :=
  let profile := src.profile
  let original_nodata := profile.nodata
  let profile' :=
    { profile with
        dtype := dtype
        nodata := some nodata
        compress := some "LZW"
        bigtiff := some "IF_SAFER"
        tiled := true
        blockxsize := some 512
        blockysize := some 512 }
  (src.bounds, src.profile.width, src.profile.height, profile',
    original_nodata)

/-! ## The exception-swallowing worker loop

`extract_to_mask` dispatches `process` over the windows with
`executor.map(process, windows)` and never consumes the returned
iterator, so an exception raised inside a worker is captured in its
future and never re-raised: the affected tile is skipped and the method
returns normally. -/

/-- One worker task: on success the destination window is written, on a
tile error the destination is left untouched (the exception is stored in
the never-consumed future). -/
def process_swallowed (tileRes : Window → Except String (List Int))
    (dst : Window → List Int) (w : Window) : Window → List Int :=
  match tileRes w with
  | Except.ok v => Function.update dst w v
  | Except.error _ => dst

/-- The whole `extract_to_mask` call as executed: all tiles are
dispatched, failed tiles are silently skipped, and the method always
returns successfully. -/
def extract_to_mask_swallow (tileRes : Window → Except String (List Int))
    (dst0 : Window → List Int) (windows : List Window) :
    Except String (Window → List Int) :=
  Except.ok (windows.foldl (process_swallowed tileRes) dst0)

/-! ## The pipeline event trace

`__init__` runs `get_extent_dims` (opens the mask raster), then
`extract_to_extent` (a `gdal.Warp` call), then `extract_to_mask` (opens
three handles and maps `process` over the windows), then `calc_stats`.
Inside `process`, both window reads happen before the
`DATA_TYPES[self.dtype]` lookup; an unsupported dtype string therefore
raises `KeyError` only at that point, and the write is skipped. -/

inductive PEv
  | openMask
  | warpExtent
  | openHandles
  | readSrcEv
  | readMstEv
  | writeDstEv
  | keyErrorDtype
  | statsEv
deriving DecidableEq

/-- The event trace of one `process` call for a given dtype string. -/
def processTrace (dtype : String) : List PEv :=
  [PEv.readSrcEv, PEv.readMstEv] ++
    (match dataTypesLookup dtype with
     | some _ => [PEv.writeDstEv]
     | none => [PEv.keyErrorDtype])

/-- The event trace of the whole `ExtractByRasterMask.__init__` run.
Worker exceptions are swallowed, so the trace always reaches the final
statistics stage. -/
def pipelineTrace (dtype : String) (windows : List Window) : List PEv :=
  [PEv.openMask, PEv.warpExtent, PEv.openHandles] ++
    (windows.map (fun _ => processTrace dtype)).flatten ++ [PEv.statsEv]

/-! ## The lock discipline of the worker pool

Each worker runs the body of `process` for its tile.  Its I/O behaviour
is the straight-line instruction sequence

```
0: acquire read_lock      -- with read_lock:
1:   begin src.read
2:   end src.read
3: release read_lock
4: acquire read_lock      -- with read_lock:
5:   begin mst.read
6:   end mst.read
7: release read_lock
8: acquire write_lock     -- with write_lock:
9:   begin dst.write
10:  end dst.write
11: release write_lock
12: done
```

interleaved arbitrarily across workers, with lock acquisition blocking
while another worker holds the lock.  A worker is *performing I/O* on a
handle between the matching begin and end instructions, i.e. at program
counters 2 (source read), 6 (mask read) and 10 (destination write). -/

/-- Global state of the masking stage: who holds each lock, and each
worker's program counter. -/
structure LockSt (ι : Type) where
  rHold : Option ι
  wHold : Option ι
  pcOf : ι → Nat

/-- The worker `i` may take its next step: it is not done, and if the
next instruction acquires a lock, that lock is free. -/
def guardOK {ι : Type} (s : LockSt ι) (i : ι) : Prop :=
  s.pcOf i < 12 ∧
    ((s.pcOf i = 0 ∨ s.pcOf i = 4) → s.rHold = none) ∧
    (s.pcOf i = 8 → s.wHold = none)

instance guardOKDec {ι : Type} [DecidableEq ι] (s : LockSt ι) (i : ι) :
    Decidable (guardOK s i) := by
  unfold guardOK
  infer_instance

/-- The state after worker `i` executes its next instruction. -/
def nextSt {ι : Type} [DecidableEq ι] (s : LockSt ι) (i : ι) : LockSt ι :=
  { rHold :=
      if s.pcOf i = 0 ∨ s.pcOf i = 4 then some i
      else if s.pcOf i = 3 ∨ s.pcOf i = 7 then none
      else s.rHold
    wHold :=
      if s.pcOf i = 8 then some i
      else if s.pcOf i = 11 then none
      else s.wHold
    pcOf := Function.update s.pcOf i (s.pcOf i + 1) }

/-- One interleaving step: some ready worker executes one instruction. -/
inductive LStep {ι : Type} [DecidableEq ι] : LockSt ι → LockSt ι → Prop
  | step (s : LockSt ι) (i : ι) (h : guardOK s i) : LStep s (nextSt s i)

/-- The initial state: both locks free, every worker at its start. -/
def initSt (ι : Type) : LockSt ι :=
  { rHold := none, wHold := none, pcOf := fun _ => 0 }

/-- States reachable by some interleaving of the workers. -/
def ReachableL {ι : Type} [DecidableEq ι] (s : LockSt ι) : Prop :=
  Relation.ReflTransGen LStep (initSt ι) s

/-- Worker `i` is between `begin src.read` and `end src.read`. -/
def readingSrc {ι : Type} (s : LockSt ι) (i : ι) : Prop := s.pcOf i = 2

instance readingSrcDec {ι : Type} (s : LockSt ι) (i : ι) :
    Decidable (readingSrc s i) := by
  unfold readingSrc
  infer_instance

/-- Worker `i` is between `begin mst.read` and `end mst.read`. -/
def readingMst {ι : Type} (s : LockSt ι) (i : ι) : Prop := s.pcOf i = 6

instance readingMstDec {ι : Type} (s : LockSt ι) (i : ι) :
    Decidable (readingMst s i) := by
  unfold readingMst
  infer_instance

/-- Worker `i` is between `begin dst.write` and `end dst.write`. -/
def writingDst {ι : Type} (s : LockSt ι) (i : ι) : Prop := s.pcOf i = 10

instance writingDstDec {ι : Type} (s : LockSt ι) (i : ι) :
    Decidable (writingDst s i) := by
  unfold writingDst
  infer_instance

/-- Program counters at which a worker holds the read lock. -/
def inR (pc : Nat) : Prop := (1 ≤ pc ∧ pc ≤ 3) ∨ (5 ≤ pc ∧ pc ≤ 7)

/-- Program counters at which a worker holds the write lock. -/
def inW (pc : Nat) : Prop := 9 ≤ pc ∧ pc ≤ 11

/-- The lock-ownership invariant of the masking stage. -/
def InvL {ι : Type} (s : LockSt ι) : Prop :=
  (∀ i, inR (s.pcOf i) → s.rHold = some i) ∧
    (∀ i, inW (s.pcOf i) → s.wHold = some i)

lemma invL_init (ι : Type) : InvL (initSt ι) := by
  constructor <;> intro i h <;> simp [initSt, inR, inW] at h

lemma invL_step {ι : Type} [DecidableEq ι] {s t : LockSt ι}
    (hinv : InvL s) (hst : LStep s t) : InvL t := by
  cases hst with
  | step j hg => ?_
  obtain ⟨hlt, hr, hw⟩ := hg
  obtain ⟨hinvR, hinvW⟩ := hinv
  constructor
  · intro i hi
    by_cases hij : i = j
    · subst hij
      simp only [nextSt, Function.update_same] at hi ⊢
      rcases Or.symm (Nat.lt_or_ge (s.pcOf i) 9) with h9 | h9
      · exfalso
        simp [inR] at hi
        omega
      · by_cases h04 : s.pcOf i = 0 ∨ s.pcOf i = 4
        · simp [h04]
        · have h37 : ¬(s.pcOf i = 3 ∨ s.pcOf i = 7) := by
            simp [inR] at hi ⊢
            omega
          simp [h04, h37]
          exact hinvR i (by simp [inR] at hi ⊢; omega)
    · simp only [nextSt, Function.update_noteq hij] at hi ⊢
      have hold := hinvR i hi
      by_cases h04 : s.pcOf j = 0 ∨ s.pcOf j = 4
      · exact absurd (hr h04) (by simp [hold])
      · by_cases h37 : s.pcOf j = 3 ∨ s.pcOf j = 7
        · exfalso
          have := hinvR j (by simp [inR]; omega)
          rw [hold] at this
          exact hij (Option.some.inj this)
        · simp [h04, h37, hold]
  · intro i hi
    by_cases hij : i = j
    · subst hij
      simp only [nextSt, Function.update_same] at hi ⊢
      by_cases h8 : s.pcOf i = 8
      · simp [h8]
      · have h11 : ¬ s.pcOf i = 11 := by
          simp [inW] at hi
          omega
        simp [h8, h11]
        exact hinvW i (by simp [inW] at hi ⊢; omega)
    · simp only [nextSt, Function.update_noteq hij] at hi ⊢
      have hold := hinvW i hi
      by_cases h8 : s.pcOf j = 8
      · exact absurd (hw h8) (by simp [hold])
      · by_cases h11 : s.pcOf j = 11
        · exfalso
          have := hinvW j (by simp [inW]; omega)
          rw [hold] at this
          exact hij (Option.some.inj this)
        · simp [h8, h11, hold]

lemma invL_reachable {ι : Type} [DecidableEq ι] {s : LockSt ι}
    (h : ReachableL s) : InvL s := by
  induction h with
  | refl => exact invL_init ι
  | tail _ hstep ih => exact invL_step ih hstep

/-- Run a list of worker identifiers as a schedule from a state. -/
def runList {ι : Type} [DecidableEq ι] (s : LockSt ι) : List ι → LockSt ι
  | [] => s
  | i :: is => runList (nextSt s i) is

/-- Every step of the schedule satisfies its guard. -/
def stepsOK {ι : Type} [DecidableEq ι] (s : LockSt ι) : List ι → Prop
  | [] => True
  | i :: is => guardOK s i ∧ stepsOK (nextSt s i) is

instance stepsOKDec {ι : Type} [DecidableEq ι] (s : LockSt ι) :
    (l : List ι) → Decidable (stepsOK s l)
  | [] => Decidable.isTrue trivial
  | i :: is =>
      have := stepsOKDec (nextSt s i) is
      inferInstanceAs (Decidable (guardOK s i ∧ stepsOK (nextSt s i) is))

lemma reflTransGen_runList {ι : Type} [DecidableEq ι] :
    ∀ (l : List ι) (s : LockSt ι), stepsOK s l →
      Relation.ReflTransGen LStep s (runList s l)
  | [], _, _ => Relation.ReflTransGen.refl
  | i :: is, s, h =>
      Relation.ReflTransGen.head (LStep.step s i h.1)
        (reflTransGen_runList is (nextSt s i) h.2)

lemma reachableL_runList {ι : Type} [DecidableEq ι] (l : List ι)
    (h : stepsOK (initSt ι) l) : ReachableL (runList (initSt ι) l) :=
  reflTransGen_runList l (initSt ι) h

/-- With the single shared read lock and the separate write lock, one
worker can be inside a source-window read while another worker is inside
a destination-window write: reads and writes on different handles do
overlap. -/
lemma locks_allow_read_write_overlap :
    ∃ s : LockSt Bool, ReachableL s ∧ readingSrc s true ∧
      writingDst s false :=
  ⟨runList (initSt Bool)
      [false, false, false, false, false, false, false, false, false,
        false, true, true],
    reachableL_runList _ (by decide), by decide, by decide⟩

/-! ## Concrete sample inputs used by witnesses and counterexamples -/

/-- A first 512×512 block window. -/
def w00 : Window := ⟨0, 0, 512, 512⟩

/-- A second 512×512 block window. -/
def w01 : Window := ⟨512, 0, 512, 512⟩

/-- A concrete mask raster as read by rasterio: note that a profile read
from a file has no `bigtiff` key. -/
def src0 : MaskSrc :=
  { profile :=
      { driver := "GTiff", dtype := "float64", nodata := some (-9999),
        width := 1000, height := 800, count := 1, crs := 4326,
        transform := 17, blockxsize := none, blockysize := none,
        tiled := false, compress := none, interleave := none,
        bigtiff := none }
    bounds := { left := 0, bottom := 0, right := 1000, top := 800 } }

/-! ## The claims -/

/-- Claim C1: for every pixel position in every tile, if the mask
raster's value at that position equals the mask raster's own no-data
value, then the destination raster's pixel at that position equals the
target no-data sentinel (Rule A).  The hypothesis `hcast` says the
sentinel is left unchanged by the cast to the destination pixel type,
which is a precondition for the destination handle to be creatable with
that sentinel as its profile no-data value. -/
theorem c1_rule_a (dtype : DType) (nodata origNodata mstNodata : Int)
    (srcRead mstRead dst0 : Window → List Int) (windows : List Window)
    (w : Window) (i : Nat)
    (hcast : castVal dtype nodata = nodata)
    (hw : w ∈ windows)
    (h1 : i < (srcRead w).length) (h2 : i < (mstRead w).length)
    (hm : (mstRead w).getD i 0 = mstNodata) :
    (extract_to_mask_result dtype nodata origNodata mstNodata
        srcRead mstRead dst0 windows w).getD i 0 = nodata := by
  rw [extract_result_eq, if_pos hw,
    process_getD dtype nodata origNodata mstNodata _ _ i h1 h2, hm,
    rulePix_mask, hcast]

theorem c1_rule_a_witness :
    (extract_to_mask_result DType.float32 (-99999) (-9999) 0
        (fun _ => [7]) (fun _ => [0]) (fun _ => []) [w00] w00).getD 0 0 =
      -99999 :=
  c1_rule_a DType.float32 (-99999) (-9999) 0
    (fun _ => [7]) (fun _ => [0]) (fun _ => []) [w00] w00 0
    rfl (by decide) (by decide) (by decide) rfl

/-- Claim C2: for every pixel position in every tile, if the
intermediate (resampled) raster's value there equals the original
no-data value captured from the reference raster before the profile
override, then the destination pixel equals the target sentinel,
independently of the mask value at that position (Rule B). -/
theorem c2_rule_b (dtype : DType) (nodata origNodata mstNodata : Int)
    (srcRead mstRead dst0 : Window → List Int) (windows : List Window)
    (w : Window) (i : Nat)
    (hcast : castVal dtype nodata = nodata)
    (hw : w ∈ windows)
    (h1 : i < (srcRead w).length) (h2 : i < (mstRead w).length)
    (hd : (srcRead w).getD i 0 = origNodata) :
    (extract_to_mask_result dtype nodata origNodata mstNodata
        srcRead mstRead dst0 windows w).getD i 0 = nodata := by
  rw [extract_result_eq, if_pos hw,
    process_getD dtype nodata origNodata mstNodata _ _ i h1 h2, hd,
    rulePix_orig, hcast]

theorem c2_rule_b_witness :
    (extract_to_mask_result DType.float32 (-99999) (-9999) 0
        (fun _ => [-9999]) (fun _ => [3]) (fun _ => []) [w00] w00).getD
        0 0 = -99999 :=
  c2_rule_b DType.float32 (-99999) (-9999) 0
    (fun _ => [-9999]) (fun _ => [3]) (fun _ => []) [w00] w00 0
    rfl (by decide) (by decide) (by decide) rfl

/-- Claim C3: for every pixel position in every tile, if the
intermediate raster's value there is below the fixed extreme-negative
guard threshold, then the destination pixel equals the target sentinel,
regardless of the mask state at that position (Rule C). -/
theorem c3_rule_c (dtype : DType) (nodata origNodata mstNodata : Int)
    (srcRead mstRead dst0 : Window → List Int) (windows : List Window)
    (w : Window) (i : Nat)
    (hcast : castVal dtype nodata = nodata)
    (hw : w ∈ windows)
    (h1 : i < (srcRead w).length) (h2 : i < (mstRead w).length)
    (hd : (srcRead w).getD i 0 < GUARD) :
    (extract_to_mask_result dtype nodata origNodata mstNodata
        srcRead mstRead dst0 windows w).getD i 0 = nodata := by
  rw [extract_result_eq, if_pos hw,
    process_getD dtype nodata origNodata mstNodata _ _ i h1 h2,
    rulePix_guard _ _ _ _ _ hd, hcast]

theorem c3_rule_c_witness :
    (extract_to_mask_result DType.float32 (-99999) (-9999) 0
        (fun _ => [-10000000000]) (fun _ => [3]) (fun _ => []) [w00]
        w00).getD 0 0 = -99999 :=
  c3_rule_c DType.float32 (-99999) (-9999) 0
    (fun _ => [-10000000000]) (fun _ => [3]) (fun _ => []) [w00] w00 0
    rfl (by decide) (by decide) (by decide) (by decide)

/-- The destination profile produced by `get_extent_dims`. -/
def destProfile (src : MaskSrc) (dtype : String) (nodata : Int) :
    Profile :=
  (get_extent_dims src dtype nodata).2.2.2.1

/-- The geospatial footprint is copied verbatim. -/
def footprintCopied (p q : Profile) : Prop :=
  q.transform = p.transform ∧ q.width = p.width ∧
    q.height = p.height ∧ q.crs = p.crs

/-- All profile fields other than pixel type, no-data value,
compression, and tiling parameters agree with the reference profile. -/
def onlyOverriddenFieldsDiffer (p q : Profile) : Prop :=
  q.driver = p.driver ∧ q.width = p.width ∧ q.height = p.height ∧
    q.count = p.count ∧ q.crs = p.crs ∧ q.transform = p.transform ∧
    q.interleave = p.interleave ∧ q.bigtiff = p.bigtiff

/-- Claim C4 as stated: the footprint is copied, only pixel type,
no-data, compression and tiling differ, and bounds/width/height equal
the mask's. -/
def claimC4 (src : MaskSrc) (dtype : String) (nodata : Int) : Prop :=
  footprintCopied src.profile (destProfile src dtype nodata) ∧
    onlyOverriddenFieldsDiffer src.profile (destProfile src dtype nodata) ∧
    (get_extent_dims src dtype nodata).1 = src.bounds ∧
    (get_extent_dims src dtype nodata).2.1 = src.profile.width ∧
    (get_extent_dims src dtype nodata).2.2.1 = src.profile.height

/-- Claim C4, counterexample: `get_extent_dims` also overrides the
big-file mode hint (`bigtiff='IF_SAFER'`), which is none of pixel type,
no-data value, compression, or tiling, so the "only those differ" part
fails on a concrete mask profile. -/
theorem c4_counterexample : ¬ claimC4 src0 "float32" (-99999) := by
  intro h
  have hb := h.2.1.2.2.2.2.2.2
  simp [destProfile, get_extent_dims, src0] at hb

/-- Claim C4, amended: the destination profile copies the geospatial
footprint (transform, width, height, coordinate system) verbatim from
the reference raster, and only the pixel type, no-data value,
compression, tiling parameters, *and the big-file mode hint* are
overridden; the destination's bounds, width, and height equal the
mask's exactly. -/
theorem c4_amended (src : MaskSrc) (dtype : String) (nodata : Int) :
    footprintCopied src.profile (destProfile src dtype nodata) ∧
    (destProfile src dtype nodata).driver = src.profile.driver ∧
    (destProfile src dtype nodata).count = src.profile.count ∧
    (destProfile src dtype nodata).interleave = src.profile.interleave ∧
    (destProfile src dtype nodata).dtype = dtype ∧
    (destProfile src dtype nodata).nodata = some nodata ∧
    (destProfile src dtype nodata).compress = some "LZW" ∧
    (destProfile src dtype nodata).tiled = true ∧
    (destProfile src dtype nodata).blockxsize = some 512 ∧
    (destProfile src dtype nodata).blockysize = some 512 ∧
    (destProfile src dtype nodata).bigtiff = some "IF_SAFER" ∧
    (get_extent_dims src dtype nodata).1 = src.bounds ∧
    (get_extent_dims src dtype nodata).2.1 = src.profile.width ∧
    (get_extent_dims src dtype nodata).2.2.1 = src.profile.height :=
  ⟨⟨rfl, rfl, rfl, rfl⟩, rfl, rfl, rfl, rfl, rfl, rfl, rfl, rfl, rfl,
    rfl, rfl, rfl, rfl⟩

/-- Claim C5: for a fixed set of inputs and configuration, processing
the tiles in any scheduling order (any permutation arising from any
worker-pool size and interleaving) produces an identical destination,
given the A→B→C rule order is preserved within each tile (it is, by
`process`).  Each tile reads only the immutable source and mask rasters
and writes only its own window, so the fold over any permutation of the
window list yields the same destination function. -/
theorem c5_order_independent (dtype : DType)
    (nodata origNodata mstNodata : Int)
    (srcRead mstRead dst0 : Window → List Int) (ws1 ws2 : List Window)
    (hperm : ws1.Perm ws2) :
    extract_to_mask_result dtype nodata origNodata mstNodata
        srcRead mstRead dst0 ws1 =
      extract_to_mask_result dtype nodata origNodata mstNodata
        srcRead mstRead dst0 ws2 := by
  funext w
  rw [extract_result_eq, extract_result_eq]
  by_cases h : w ∈ ws1
  · rw [if_pos h, if_pos (hperm.mem_iff.mp h)]
  · rw [if_neg h, if_neg (fun hc => h (hperm.mem_iff.mpr hc))]

theorem c5_witness :
    extract_to_mask_result DType.float32 (-99999) (-9999) 0
        (fun _ => [7]) (fun _ => [0]) (fun _ => []) [w00, w01] =
      extract_to_mask_result DType.float32 (-99999) (-9999) 0
        (fun _ => [7]) (fun _ => [0]) (fun _ => []) [w01, w00] :=
  c5_order_independent DType.float32 (-99999) (-9999) 0
    (fun _ => [7]) (fun _ => [0]) (fun _ => []) [w00, w01] [w01, w00]
    (List.Perm.swap w01 w00 [])

/-- Claim C6 evaluated on the code: a tile whose read raises is
silently skipped — `extract_to_mask` still returns successfully and the
failed tile's destination window is left unwritten (a hole), because
the iterator returned by `executor.map` is never consumed, so the
stored exception is never re-raised. -/
theorem c6_code_eval :
    extract_to_mask_swallow (fun _ => Except.error "tile read failed")
        (fun _ => ([] : List Int)) [w00] =
      Except.ok (fun _ => ([] : List Int)) := rfl

/-- Claim C7: within each tile the rules apply in the fixed order A,
then B, then C (first conjunct, definitional), and once a pixel is set
to the sentinel by Rule A or Rule B, the later rules never change it
back: it remains the sentinel in the written output of the tile. -/
theorem c7_rule_order_monotone (dtype : DType)
    (nodata origNodata mstNodata m d : Int)
    (hcast : castVal dtype nodata = nodata) :
    rulePix nodata origNodata mstNodata m d =
      ruleC nodata (ruleB nodata origNodata
        (ruleA nodata mstNodata m d)) ∧
    (ruleA nodata mstNodata m d = nodata →
      castVal dtype (rulePix nodata origNodata mstNodata m d) = nodata) ∧
    (ruleB nodata origNodata (ruleA nodata mstNodata m d) = nodata →
      castVal dtype (rulePix nodata origNodata mstNodata m d) = nodata) := by
  refine ⟨rfl, ?_, ?_⟩
  · intro hA
    have h1 : rulePix nodata origNodata mstNodata m d = nodata := by
      simp only [rulePix, ruleA, ruleB, ruleC] at hA ⊢
      split_ifs at hA ⊢ <;> omega
    rw [h1, hcast]
  · intro hB
    have h1 : rulePix nodata origNodata mstNodata m d = nodata := by
      simp only [rulePix, ruleA, ruleB, ruleC] at hB ⊢
      split_ifs at hB ⊢ <;> omega
    rw [h1, hcast]

theorem c7_witness :
    castVal DType.float32 (rulePix (-99999) (-9999) 0 0 5) = -99999 :=
  (c7_rule_order_monotone DType.float32 (-99999) (-9999) 0 0 5 rfl).2.1
    (by decide)

/-- Claim C8: in every reachable state of the masking stage, a worker
inside a source- or mask-window read holds the read guard and a worker
inside a destination-window write holds the write guard; consequently no
two workers ever perform I/O on the same raster handle simultaneously.
(Different handles can genuinely be accessed concurrently: see
`locks_allow_read_write_overlap`.) -/
theorem c8_lock_discipline (ι : Type) [DecidableEq ι] (s : LockSt ι)
    (hreach : ReachableL s) :
    (∀ i, readingSrc s i ∨ readingMst s i → s.rHold = some i) ∧
    (∀ i, writingDst s i → s.wHold = some i) ∧
    (∀ i j, i ≠ j →
      ¬(readingSrc s i ∧ readingSrc s j) ∧
      ¬(readingMst s i ∧ readingMst s j) ∧
      ¬(writingDst s i ∧ writingDst s j)) := by
  obtain ⟨hR, hW⟩ := invL_reachable hreach
  have hrd : ∀ i, readingSrc s i ∨ readingMst s i → s.rHold = some i := by
    intro i hi
    rcases hi with h | h
    · exact hR i (by simp [readingSrc] at h; simp [inR]; omega)
    · exact hR i (by simp [readingMst] at h; simp [inR]; omega)
  have hwr : ∀ i, writingDst s i → s.wHold = some i := by
    intro i h
    exact hW i (by simp [writingDst] at h; simp [inW]; omega)
  refine ⟨hrd, hwr, ?_⟩
  intro i j hij
  refine ⟨?_, ?_, ?_⟩
  · rintro ⟨h1, h2⟩
    have e1 := hrd i (Or.inl h1)
    have e2 := hrd j (Or.inl h2)
    rw [e1] at e2
    exact hij (Option.some.inj e2)
  · rintro ⟨h1, h2⟩
    have e1 := hrd i (Or.inr h1)
    have e2 := hrd j (Or.inr h2)
    rw [e1] at e2
    exact hij (Option.some.inj e2)
  · rintro ⟨h1, h2⟩
    have e1 := hwr i h1
    have e2 := hwr j h2
    rw [e1] at e2
    exact hij (Option.some.inj e2)

theorem c8_witness :
    (runList (initSt Bool) [true, true]).rHold = some true :=
  (c8_lock_discipline Bool (runList (initSt Bool) [true, true])
      (reachableL_runList _ (by decide))).1 true (Or.inl (by decide))

/-- Claim C9 evaluated on the code: for the dtype string `"int64"`,
which is not in `DATA_TYPES`, both window reads of a tile happen before
the failing `DATA_TYPES[self.dtype]` lookup (a `KeyError`; no
`UnsupportedTypeError` exists), the mask-raster open and the `gdal.Warp`
call precede it as well, and the swallowed failure lets the pipeline
run through to the statistics stage. -/
theorem c9_code_eval :
    dataTypesLookup "int64" = none ∧
    processTrace "int64" =
      [PEv.readSrcEv, PEv.readMstEv, PEv.keyErrorDtype] ∧
    pipelineTrace "int64" [w00] =
      [PEv.openMask, PEv.warpExtent, PEv.openHandles, PEv.readSrcEv,
        PEv.readMstEv, PEv.keyErrorDtype, PEv.statsEv] :=
  ⟨rfl, rfl, rfl⟩

/-- Claim C10: the per-tile substitution transform is idempotent: for a
fixed mask block, applying the three rules A, B, C a second time to an
already-processed buffer yields the same buffer, provided the target
sentinel is not below the extreme-negative guard threshold.  (The
hypothesis is stated as in the claim; the proof shows it is not even
needed.) -/
theorem c10_substitution_idempotent (nodata origNodata mstNodata : Int)
    (data mdata : List Int) (_hguard : GUARD ≤ nodata) :
    applyRules nodata origNodata mstNodata
        (applyRules nodata origNodata mstNodata data mdata) mdata =
      applyRules nodata origNodata mstNodata data mdata :=
  applyRules_idem nodata origNodata mstNodata data mdata

theorem c10_witness :
    GUARD ≤ -99999 ∧
      applyRules (-99999) (-9999) 0
          (applyRules (-99999) (-9999) 0 [5, -9999, -10000000000]
            [0, 1, 2])
          [0, 1, 2] =
        applyRules (-99999) (-9999) 0 [5, -9999, -10000000000]
          [0, 1, 2] :=
  ⟨by decide,
    c10_substitution_idempotent (-99999) (-9999) 0
      [5, -9999, -10000000000] [0, 1, 2] (by decide)⟩

end RedeExtract
